import Mathlib

/-!
Shallow embedding of the Vetcent marketplace backend (src/main.py).

The service is a stateless request-handling layer over an external
relational store.  We model the store as a pure value (`DB`: the rows of
the `orders`, `order_items` and `supplier_prices` tables together with
fresh-id counters for inserts), and each HTTP handler as a function from
the request payload and the current `DB` to the resulting `DB` plus
either an `HTTPError` (an HTTPException raised by the handler) or the
handler's JSON response.  Handlers that only issue selects return the
input `DB` unchanged.

UUIDs are modelled as `Nat`; monetary amounts (`price`, `unit_price`,
`total_amount`) as `Int`.  Supabase query chains are modelled by their
evident relational semantics: `.eq` filters, `.limit(1)`/`.single()`
yield the first matching row, `.insert` appends a row with a fresh id,
`.update().eq(col, v)` maps the update over every row matching the
filter, and chained `.order` calls sort lexicographically by the listed
keys (a stable sort; we use insertion sort, which is stable).
-/

deriving instance DecidableEq for Except

namespace Vetcent

/-- Status of an order; the service only ever writes `draft` and `submitted`. -/
inductive OrderStatus where
  | draft
  | submitted
deriving DecidableEq

/-- A row of the `orders` table. -/
structure Order where
  id : Nat
  clinic_user_id : Nat
  status : OrderStatus
  total_amount : Int
deriving DecidableEq

/-- A row of the `order_items` table. -/
structure OrderItem where
  id : Nat
  order_id : Nat
  product_id : Nat
  supplier_id : Nat
  quantity : Int
  unit_price : Int
deriving DecidableEq

/-- A row of the `supplier_prices` table. -/
structure SupplierPrice where
  id : Nat
  product_id : Nat
  supplier_id : Nat
  price : Int
  stock : Int
  delivery_days : Int
  is_active : Bool
deriving DecidableEq

/-- The persistent state seen by the handlers: the three tables the cart/order
workflow touches, plus counters supplying fresh primary keys for inserts. -/
structure DB where
  orders : List Order
  order_items : List OrderItem
  supplier_prices : List SupplierPrice
  next_order_id : Nat
  next_item_id : Nat
deriving DecidableEq

/-- An `HTTPException(status_code, detail)` raised by a handler. -/
structure HTTPError where
  status : Nat
  detail : String
deriving DecidableEq

/-- Request body of `POST /cart/add` (`CartAddItem` in src/main.py). -/
structure CartAddItem where
  clinic_user_id : Nat
  product_id : Nat
  supplier_id : Nat
  quantity : Int
deriving DecidableEq

/-- Response of `POST /cart/add`. -/
structure CartAddResponse where
  message : String
  order_id : Nat
  total_amount : Int
  item : Option OrderItem
deriving DecidableEq

/-- Response of `GET /cart/{clinic_user_id}`; `order_id = none` models the
no-draft response, which carries no `order_id` key. -/
structure CartResponse where
  order_id : Option Nat
  items : List OrderItem
  total_amount : Int
deriving DecidableEq

/-- Response of `POST /orders`. -/
structure OrderCreateResponse where
  message : String
  order_id : Nat
  status : OrderStatus
  total_amount : Int
  items_count : Nat
deriving DecidableEq

/-- Response of `POST /orders/submit`. -/
structure SubmitResponse where
  message : String
  order_id : Nat
deriving DecidableEq

/-- `orders.select(...).eq("clinic_user_id", cid).eq("status", "draft").limit(1)`:
the first draft order of the clinic user, if any. -/
def findDraftOrder (clinic_user_id : Nat) (db : DB) : Option Order :=
  db.orders.find? (fun o =>
    o.clinic_user_id == clinic_user_id && o.status == OrderStatus.draft)

/-- `supplier_prices.select(...).eq("product_id", p).eq("supplier_id", s)
.eq("is_active", True).single()`: the first active price row for the pair. -/
def findActiveSupplierPrice (product_id supplier_id : Nat) (db : DB) :
    Option SupplierPrice :=
  db.supplier_prices.find? (fun sp =>
    sp.product_id == product_id && sp.supplier_id == supplier_id && sp.is_active)

/-- `order_items.select(...).eq("order_id", oid).eq("product_id", p)
.eq("supplier_id", s).limit(1)`: the first matching line item, if any. -/
def findOrderItem (order_id product_id supplier_id : Nat) (db : DB) :
    Option OrderItem :=
  db.order_items.find? (fun it =>
    it.order_id == order_id && it.product_id == product_id &&
      it.supplier_id == supplier_id)

/-- `sum((i.get("quantity") or 0) * (i.get("unit_price") or 0) for i in items)`
over the line items of one order. -/
def orderItemsTotal (order_id : Nat) (db : DB) : Int :=
  ((db.order_items.filter (fun i => i.order_id == order_id)).map
    (fun i => i.quantity * i.unit_price)).sum

/-- `_recalc_and_update_order_total` in src/main.py: re-read the order's line
items, sum `quantity * unit_price`, persist the sum as the order's
`total_amount`, and return it. -/
def _recalc_and_update_order_total (order_id : Nat) (db : DB) : Int × DB :=
  let total := orderItemsTotal order_id db
  (total,
    { db with
        orders := db.orders.map (fun o =>
          if o.id == order_id then { o with total_amount := total } else o) })

/-- The find-or-create block at the top of `add_to_cart`: look up the clinic
user's draft order; if absent, insert a fresh one with `total_amount = 0` and
status `draft`.  Returns the draft order's id and the possibly-extended state. -/
def findOrCreateDraftOrder (clinic_user_id : Nat) (db : DB) : Nat × DB :=
  match findDraftOrder clinic_user_id db with
  | some o => (o.id, db)
  | none =>
      (db.next_order_id,
        { db with
            orders := db.orders ++
              [⟨db.next_order_id, clinic_user_id, OrderStatus.draft, 0⟩],
            next_order_id := db.next_order_id + 1 })

/-- `order_items.update(quantity = old + qty).eq("id", item_id)`: bump the
quantity of every line item whose id matches. -/
def bumpQuantity (item_id : Nat) (qty : Int) (items : List OrderItem) :
    List OrderItem :=
  items.map (fun it =>
    if it.id == item_id then { it with quantity := it.quantity + qty } else it)

/-- The state after bumping the matched line item's quantity. -/
def bumpItemDB (p : CartAddItem) (item : OrderItem) (db : DB) : DB :=
  { db with order_items := bumpQuantity item.id p.quantity db.order_items }

/-- The existing-line-item branch of `add_to_cart`: increment the matched
item's quantity (the price is not re-fetched), then recompute the total. -/
def addExistingItem (p : CartAddItem) (order_id : Nat) (item : OrderItem)
    (db : DB) : DB × Except HTTPError CartAddResponse :=
  ((_recalc_and_update_order_total order_id (bumpItemDB p item db)).2,
    Except.ok ⟨"cart_item_updated", order_id,
      (_recalc_and_update_order_total order_id (bumpItemDB p item db)).1,
      some { item with quantity := item.quantity + p.quantity }⟩)

/-- The fresh line item inserted by the new-line-item branch, carrying the
current price as a snapshot. -/
def newOrderItem (p : CartAddItem) (order_id : Nat) (unit_price : Int)
    (db : DB) : OrderItem :=
  ⟨db.next_item_id, order_id, p.product_id, p.supplier_id, p.quantity, unit_price⟩

/-- The state after inserting the fresh line item. -/
def insertItemDB (p : CartAddItem) (order_id : Nat) (unit_price : Int)
    (db : DB) : DB :=
  { db with
      order_items := db.order_items ++ [newOrderItem p order_id unit_price db],
      next_item_id := db.next_item_id + 1 }

/-- The new-line-item branch of `add_to_cart`: insert a fresh item carrying the
current price as a snapshot, then recompute the total. -/
def addNewItem (p : CartAddItem) (order_id : Nat) (unit_price : Int)
    (db : DB) : DB × Except HTTPError CartAddResponse :=
  ((_recalc_and_update_order_total order_id (insertItemDB p order_id unit_price db)).2,
    Except.ok ⟨"added_to_cart", order_id,
      (_recalc_and_update_order_total order_id (insertItemDB p order_id unit_price db)).1,
      some (newOrderItem p order_id unit_price db)⟩)

/-- The part of `add_to_cart` after the draft order is known: price lookup,
stock check, and the upsert of the line item. -/
def addToCartWithOrder (p : CartAddItem) (order_id : Nat) (db : DB) :
    DB × Except HTTPError CartAddResponse :=
  match findActiveSupplierPrice p.product_id p.supplier_id db with
  | none =>
      (db, Except.error ⟨404,
        "Bu urun+tedarikci icin aktif supplier_prices bulunamadi"⟩)
  | some sp =>
      if sp.stock ≤ 0 then
        (db, Except.error ⟨400, "Stok yok (stock <= 0)"⟩)
      else
        match findOrderItem order_id p.product_id p.supplier_id db with
        | some item => addExistingItem p order_id item db
        | none => addNewItem p order_id sp.price db

/-- `POST /cart/add` (`add_to_cart` in src/main.py). -/
def add_to_cart (p : CartAddItem) (db : DB) :
    DB × Except HTTPError CartAddResponse :=
  if p.quantity ≤ 0 then
    (db, Except.error ⟨400, "quantity > 0 olmali"⟩)
  else
    addToCartWithOrder p (findOrCreateDraftOrder p.clinic_user_id db).1
      (findOrCreateDraftOrder p.clinic_user_id db).2

/-- `GET /cart/{clinic_user_id}` (`get_cart` in src/main.py): selects only,
returns the draft order's items and stored total, or an empty cart. -/
def get_cart (clinic_user_id : Nat) (db : DB) :
    DB × Except HTTPError CartResponse :=
  match findDraftOrder clinic_user_id db with
  | none => (db, Except.ok ⟨none, [], 0⟩)
  | some o =>
      (db, Except.ok ⟨some o.id,
        db.order_items.filter (fun i => i.order_id == o.id),
        o.total_amount⟩)

/-- `POST /orders` (`create_order` in src/main.py): requires a draft with at
least one line item; recomputes the total, then marks the order submitted. -/
def create_order (clinic_user_id : Nat) (db : DB) :
    DB × Except HTTPError OrderCreateResponse :=
  match findDraftOrder clinic_user_id db with
  | none =>
      (db, Except.error ⟨404, "Draft sepet bulunamadi. Once /cart/add ile urun ekle."⟩)
  | some o =>
      if (db.order_items.filter (fun i => i.order_id == o.id)).length = 0 then
        (db, Except.error ⟨400, "Sepet bos. Siparis olusturulamaz."⟩)
      else
        ({ (_recalc_and_update_order_total o.id db).2 with
            orders := (_recalc_and_update_order_total o.id db).2.orders.map (fun x =>
              if x.id == o.id then
                { x with status := OrderStatus.submitted,
                         total_amount := (_recalc_and_update_order_total o.id db).1 }
              else x) },
          Except.ok ⟨"order_created", o.id, OrderStatus.submitted,
            (_recalc_and_update_order_total o.id db).1,
            (db.order_items.filter (fun i => i.order_id == o.id)).length⟩)

/-- `POST /orders/submit` (`submit_order` in src/main.py): the looser
transition; no item-count check, no recompute, only the status is written.
`none` models a request body without a truthy `clinic_user_id`. -/
def submit_order (clinic_user_id : Option Nat) (db : DB) :
    DB × Except HTTPError SubmitResponse :=
  match clinic_user_id with
  | none => (db, Except.error ⟨400, "clinic_user_id gerekli"⟩)
  | some cid =>
      match findDraftOrder cid db with
      | none => (db, Except.error ⟨404, "Draft order bulunamadi"⟩)
      | some o =>
          ({ db with
              orders := db.orders.map (fun x =>
                if x.id == o.id then { x with status := OrderStatus.submitted } else x) },
            Except.ok ⟨"order_created", o.id⟩)

/-- The two-key comparison realised by `.order("price").order("delivery_days")`:
price ascending, then delivery_days ascending. -/
def offerLE (a b : SupplierPrice) : Prop :=
  a.price < b.price ∨ (a.price = b.price ∧ a.delivery_days ≤ b.delivery_days)

instance : DecidableRel offerLE := fun a b =>
  inferInstanceAs (Decidable
    (a.price < b.price ∨ (a.price = b.price ∧ a.delivery_days ≤ b.delivery_days)))

instance : IsTotal SupplierPrice offerLE :=
  ⟨by
    intro a b
    unfold offerLE
    rcases lt_trichotomy a.price b.price with h | h | h
    · exact Or.inl (Or.inl h)
    · rcases le_total a.delivery_days b.delivery_days with hd | hd
      · exact Or.inl (Or.inr ⟨h, hd⟩)
      · exact Or.inr (Or.inr ⟨h.symm, hd⟩)
    · exact Or.inr (Or.inl h)⟩

instance : IsTrans SupplierPrice offerLE :=
  ⟨by
    intro a b c hab hbc
    unfold offerLE at hab hbc ⊢
    rcases hab with h1 | ⟨h1, d1⟩ <;> rcases hbc with h2 | ⟨h2, d2⟩
    · exact Or.inl (h1.trans h2)
    · exact Or.inl (h2 ▸ h1)
    · exact Or.inl (h1 ▸ h2)
    · exact Or.inr ⟨h1.trans h2, d1.trans d2⟩⟩

/-- `GET /products/{product_id}/offers` (`get_product_offers` in src/main.py):
active rows with positive stock for the product, sorted by price then
delivery_days. -/
def get_product_offers (product_id : Nat) (db : DB) : List SupplierPrice :=
  List.insertionSort offerLE
    (db.supplier_prices.filter (fun sp =>
      sp.product_id == product_id && sp.is_active && decide (0 < sp.stock)))

/-- `GET /products/{product_id}/best-offer` (`get_product_best_offer` in
src/main.py): the same query with `.limit(1)`, then `data[0] if data else None`. -/
def get_product_best_offer (product_id : Nat) (db : DB) : Option SupplierPrice :=
  ((List.insertionSort offerLE
    (db.supplier_prices.filter (fun sp =>
      sp.product_id == product_id && sp.is_active && decide (0 < sp.stock)))).take 1).head?

/-- Outcome of the `signup` handler up to its first remote call: either the
request is rejected by validation, or the handler proceeds to
`supabase.auth.sign_up` with the given payload. -/
inductive SignupStep where
  | rejected (status : Nat) (detail : String)
  | authSignUp (email password role : String)
deriving DecidableEq

/-- Python's `str.lower()` (ASCII-relevant part): lower-case every character. -/
def pyLower (s : String) : String := ⟨s.data.map Char.toLower⟩

/-- Python's `str.strip()`: drop leading and trailing whitespace. -/
def pyStrip (s : String) : String :=
  ⟨((s.data.dropWhile Char.isWhitespace).reverse.dropWhile Char.isWhitespace).reverse⟩

/-- `POST /signup` (`signup` in src/main.py), up to the remote call:
normalise email and role, reject roles outside the closed set, otherwise
call the external auth service. -/
def signup (email password role : String) : SignupStep :=
  let e := pyLower (pyStrip email)
  let r := pyLower (pyStrip role)
  if ["clinic", "supplier"].contains r then
    SignupStep.authSignUp e password r
  else
    SignupStep.rejected 400 "role sadece clinic veya supplier olabilir"

/-! Concrete data used by the witness theorems. -/

/-- An active supplier price row: product 10 by supplier 20, price 5, stock 3. -/
def spW : SupplierPrice := ⟨1, 10, 20, 5, 3, 2, true⟩

/-- An initial state with one price row and no orders. -/
def dbW0 : DB := ⟨[], [], [spW], 100, 200⟩

/-- A `POST /cart/add` payload: clinic 7 adds 2 units of product 10 from supplier 20. -/
def pW : CartAddItem := ⟨7, 10, 20, 2⟩

/-- The line item created by running `add_to_cart pW dbW0`. -/
def itemW : OrderItem := ⟨200, 100, 10, 20, 2, 5⟩

/-- The state after `add_to_cart pW dbW0`: one draft order with one line item. -/
def dbW1 : DB := ⟨[⟨100, 7, OrderStatus.draft, 10⟩], [itemW], [spW], 101, 201⟩

/-- The response of `add_to_cart pW dbW0`. -/
def rW1 : CartAddResponse := ⟨"added_to_cart", 100, 10, some itemW⟩

/-- The response of `create_order 7 dbW1`. -/
def rW2 : OrderCreateResponse := ⟨"order_created", 100, OrderStatus.submitted, 10, 1⟩

/-- A state whose draft order for clinic 7 has zero line items. -/
def dbW2 : DB := ⟨[⟨100, 7, OrderStatus.draft, 0⟩], [], [], 101, 201⟩

/-- Offer rows for product 10: prices/delivery (10,3), (10,1), (8,5), one
inactive row and one zero-stock row (the spec's sorting example). -/
def spA : SupplierPrice := ⟨1, 10, 21, 10, 5, 3, true⟩

/-- See `spA`. -/
def spB : SupplierPrice := ⟨2, 10, 22, 10, 5, 1, true⟩

/-- See `spA`. -/
def spC : SupplierPrice := ⟨3, 10, 23, 8, 5, 5, true⟩

/-- An inactive row for product 10. -/
def spI : SupplierPrice := ⟨4, 10, 24, 1, 5, 1, false⟩

/-- A zero-stock row for product 10. -/
def spZ : SupplierPrice := ⟨5, 10, 25, 1, 0, 1, true⟩

/-- A state holding the five offer rows above. -/
def dbO : DB := ⟨[], [], [spA, spB, spC, spI, spZ], 0, 0⟩

/-! Helper lemmas. -/

/-- Taking one element and then the head is just the head. -/
lemma head?_take_one {α : Type} (l : List α) : (l.take 1).head? = l.head? := by
  cases l <;> rfl

/-- `_recalc_and_update_order_total` does not touch the line items. -/
lemma recalc_order_items (oid : Nat) (db : DB) :
    ((_recalc_and_update_order_total oid db).2).order_items = db.order_items := rfl

/-- `_recalc_and_update_order_total` returns the recomputed sum. -/
lemma recalc_fst (oid : Nat) (db : DB) :
    (_recalc_and_update_order_total oid db).1 = orderItemsTotal oid db := rfl

/-- `orderItemsTotal` only depends on the line items. -/
lemma orderItemsTotal_eq_of_items (oid : Nat) (db1 db2 : DB)
    (h : db1.order_items = db2.order_items) :
    orderItemsTotal oid db1 = orderItemsTotal oid db2 := by
  unfold orderItemsTotal
  rw [h]

/-- After `orders.update(total_amount = t).eq("id", oid)`, every row with the
targeted id carries total `t`. -/
lemma mem_setTotal {oid : Nat} {t : Int} {l : List Order} :
    ∀ o ∈ l.map (fun o => if o.id == oid then { o with total_amount := t } else o),
      o.id = oid → o.total_amount = t := by
  intro o ho hid
  obtain ⟨x, hx, hfx⟩ := List.mem_map.mp ho
  split at hfx
  · subst hfx
    rfl
  · subst hfx
    rename_i hne
    exact absurd (beq_iff_eq.mpr hid) hne

/-- After the submit update of `create_order`, every row with the targeted id
is submitted and carries total `t`. -/
lemma mem_setSubmittedTotal {oid : Nat} {t : Int} {l : List Order} :
    ∀ o ∈ l.map (fun x =>
        if x.id == oid then
          { x with status := OrderStatus.submitted, total_amount := t }
        else x),
      o.id = oid → o.status = OrderStatus.submitted ∧ o.total_amount = t := by
  intro o ho hid
  obtain ⟨x, hx, hfx⟩ := List.mem_map.mp ho
  split at hfx
  · subst hfx
    exact ⟨rfl, rfl⟩
  · subst hfx
    rename_i hne
    exact absurd (beq_iff_eq.mpr hid) hne

/-- After the status-only update of `submit_order`, every row with the
targeted id is submitted. -/
lemma mem_setSubmitted {oid : Nat} {l : List Order} :
    ∀ o ∈ l.map (fun x =>
        if x.id == oid then { x with status := OrderStatus.submitted } else x),
      o.id = oid → o.status = OrderStatus.submitted := by
  intro o ho hid
  obtain ⟨x, hx, hfx⟩ := List.mem_map.mp ho
  split at hfx
  · subst hfx
    rfl
  · subst hfx
    rename_i hne
    exact absurd (beq_iff_eq.mpr hid) hne

/-- A row returned by the draft-order query is a draft order of the clinic
user stored in the state. -/
lemma findDraftOrder_some {cid : Nat} {db : DB} {o : Order}
    (h : findDraftOrder cid db = some o) :
    o ∈ db.orders ∧ o.clinic_user_id = cid ∧ o.status = OrderStatus.draft := by
  have hm := List.mem_of_find?_eq_some h
  have hp := List.find?_some h
  simp only [Bool.and_eq_true, beq_iff_eq] at hp
  exact ⟨hm, hp.1, hp.2⟩

/-- A row returned by the line-item query is stored in the state. -/
lemma findOrderItem_mem {oid pid sid : Nat} {db : DB} {it : OrderItem}
    (h : findOrderItem oid pid sid db = some it) : it ∈ db.order_items :=
  List.mem_of_find?_eq_some h

/-- The find-or-create block never touches the `supplier_prices` table. -/
lemma findOrCreate_supplier_prices (cid : Nat) (db : DB) :
    (findOrCreateDraftOrder cid db).2.supplier_prices = db.supplier_prices := by
  unfold findOrCreateDraftOrder
  split <;> rfl

/-- The find-or-create block never touches the `order_items` table. -/
lemma findOrCreate_order_items (cid : Nat) (db : DB) :
    (findOrCreateDraftOrder cid db).2.order_items = db.order_items := by
  unfold findOrCreateDraftOrder
  split <;> rfl

/-- The price lookup only depends on the `supplier_prices` table. -/
lemma findActiveSupplierPrice_eq_of_prices (pid sid : Nat) (db1 db2 : DB)
    (h : db1.supplier_prices = db2.supplier_prices) :
    findActiveSupplierPrice pid sid db1 = findActiveSupplierPrice pid sid db2 := by
  unfold findActiveSupplierPrice
  rw [h]

/-- The line-item lookup only depends on the `order_items` table. -/
lemma findOrderItem_eq_of_items (oid pid sid : Nat) (db1 db2 : DB)
    (h : db1.order_items = db2.order_items) :
    findOrderItem oid pid sid db1 = findOrderItem oid pid sid db2 := by
  unfold findOrderItem
  rw [h]

/-- When a draft order exists, the find-or-create block returns it and leaves
the state untouched. -/
lemma findOrCreate_of_some {cid : Nat} {db : DB} {o : Order}
    (h : findDraftOrder cid db = some o) :
    findOrCreateDraftOrder cid db = (o.id, db) := by
  unfold findOrCreateDraftOrder
  rw [h]

/-- When no draft order exists, the find-or-create block inserts a fresh draft
order with total 0. -/
lemma findOrCreate_of_none {cid : Nat} {db : DB}
    (h : findDraftOrder cid db = none) :
    findOrCreateDraftOrder cid db =
      (db.next_order_id,
        { db with
            orders := db.orders ++ [⟨db.next_order_id, cid, OrderStatus.draft, 0⟩],
            next_order_id := db.next_order_id + 1 }) := by
  unfold findOrCreateDraftOrder
  rw [h]

/-- `add_to_cart` reduced on the missing-or-inactive-price path. -/
lemma add_to_cart_price_missing {p : CartAddItem} {db : DB}
    (hq : 0 < p.quantity)
    (hsp : findActiveSupplierPrice p.product_id p.supplier_id db = none) :
    add_to_cart p db = ((findOrCreateDraftOrder p.clinic_user_id db).2,
      Except.error ⟨404, "Bu urun+tedarikci icin aktif supplier_prices bulunamadi"⟩) := by
  unfold add_to_cart
  rw [if_neg (not_le.mpr hq)]
  unfold addToCartWithOrder
  rw [findActiveSupplierPrice_eq_of_prices _ _ _ db
    (findOrCreate_supplier_prices p.clinic_user_id db), hsp]

/-- `add_to_cart` reduced on the out-of-stock path. -/
lemma add_to_cart_out_of_stock {p : CartAddItem} {db : DB} {sp : SupplierPrice}
    (hq : 0 < p.quantity)
    (hsp : findActiveSupplierPrice p.product_id p.supplier_id db = some sp)
    (hst : sp.stock ≤ 0) :
    add_to_cart p db = ((findOrCreateDraftOrder p.clinic_user_id db).2,
      Except.error ⟨400, "Stok yok (stock <= 0)"⟩) := by
  unfold add_to_cart
  rw [if_neg (not_le.mpr hq)]
  unfold addToCartWithOrder
  rw [findActiveSupplierPrice_eq_of_prices _ _ _ db
    (findOrCreate_supplier_prices p.clinic_user_id db), hsp]
  simp only [if_pos hst]

/-- `add_to_cart` reduced on the existing-line-item path. -/
lemma add_to_cart_existing {p : CartAddItem} {db : DB} {o : Order}
    {sp : SupplierPrice} {item : OrderItem}
    (hq : 0 < p.quantity)
    (ho : findDraftOrder p.clinic_user_id db = some o)
    (hsp : findActiveSupplierPrice p.product_id p.supplier_id db = some sp)
    (hst : 0 < sp.stock)
    (hit : findOrderItem o.id p.product_id p.supplier_id db = some item) :
    add_to_cart p db = addExistingItem p o.id item db := by
  unfold add_to_cart
  rw [if_neg (not_le.mpr hq), findOrCreate_of_some ho]
  unfold addToCartWithOrder
  rw [hsp]
  simp only [if_neg (not_le.mpr hst)]
  rw [hit]

/-- `add_to_cart` reduced on the new-line-item path. -/
lemma add_to_cart_new {p : CartAddItem} {db : DB} {o : Order}
    {sp : SupplierPrice}
    (hq : 0 < p.quantity)
    (ho : findDraftOrder p.clinic_user_id db = some o)
    (hsp : findActiveSupplierPrice p.product_id p.supplier_id db = some sp)
    (hst : 0 < sp.stock)
    (hit : findOrderItem o.id p.product_id p.supplier_id db = none) :
    add_to_cart p db = addNewItem p o.id sp.price db := by
  unfold add_to_cart
  rw [if_neg (not_le.mpr hq), findOrCreate_of_some ho]
  unfold addToCartWithOrder
  rw [hsp]
  simp only [if_neg (not_le.mpr hst)]
  rw [hit]

/-- The state produced by `_recalc_and_update_order_total` satisfies the cart
invariant at the recalculated order, and the returned total is exactly the
item sum of that state. -/
lemma recalc_invariant (oid : Nat) (db : DB) :
    (∀ o ∈ (_recalc_and_update_order_total oid db).2.orders, o.id = oid →
      o.total_amount = orderItemsTotal oid (_recalc_and_update_order_total oid db).2) ∧
    (_recalc_and_update_order_total oid db).1 =
      orderItemsTotal oid (_recalc_and_update_order_total oid db).2 := by
  have hit : orderItemsTotal oid (_recalc_and_update_order_total oid db).2 =
      orderItemsTotal oid db :=
    orderItemsTotal_eq_of_items _ _ _ (recalc_order_items oid db)
  constructor
  · intro o ho hid
    rw [hit]
    exact mem_setTotal o ho hid
  · rw [hit]
    rfl

/-- Every successful `add_to_cart` run ends in a state satisfying the cart
invariant at the returned order id, and reports that total. -/
lemma add_to_cart_ok {p : CartAddItem} {db d : DB} {r : CartAddResponse}
    (h : add_to_cart p db = (d, Except.ok r)) :
    (∀ o ∈ d.orders, o.id = r.order_id →
      o.total_amount = orderItemsTotal r.order_id d) ∧
    r.total_amount = orderItemsTotal r.order_id d := by
  unfold add_to_cart at h
  split at h
  · simp at h
  · unfold addToCartWithOrder at h
    split at h
    · simp at h
    · rename_i sp hsp
      split at h
      · simp at h
      · split at h
        · rename_i item hitem
          unfold addExistingItem at h
          injection h with h1 h2
          injection h2 with h2
          subst h1
          subst h2
          exact recalc_invariant _ _
        · unfold addNewItem at h
          injection h with h1 h2
          injection h2 with h2
          subst h1
          subst h2
          exact recalc_invariant _ _

/-- Every successful `create_order` run ends in a state satisfying the cart
invariant at the returned order id, marks that order submitted, and reports
that total. -/
lemma create_order_ok {cid : Nat} {db d : DB} {r : OrderCreateResponse}
    (h : create_order cid db = (d, Except.ok r)) :
    (∀ o ∈ d.orders, o.id = r.order_id →
      o.total_amount = orderItemsTotal r.order_id d ∧
      o.status = OrderStatus.submitted) ∧
    r.total_amount = orderItemsTotal r.order_id d := by
  unfold create_order at h
  split at h
  · simp at h
  · rename_i o ho
    split at h
    · simp at h
    · injection h with h1 h2
      injection h2 with h2
      subst h1
      subst h2
      have hitems :
          ({ (_recalc_and_update_order_total o.id db).2 with
              orders := (_recalc_and_update_order_total o.id db).2.orders.map (fun x =>
                if x.id == o.id then
                  { x with status := OrderStatus.submitted,
                           total_amount := (_recalc_and_update_order_total o.id db).1 }
                else x) } : DB).order_items = db.order_items := rfl
      have htot : orderItemsTotal o.id
          ({ (_recalc_and_update_order_total o.id db).2 with
              orders := (_recalc_and_update_order_total o.id db).2.orders.map (fun x =>
                if x.id == o.id then
                  { x with status := OrderStatus.submitted,
                           total_amount := (_recalc_and_update_order_total o.id db).1 }
                else x) } : DB) = orderItemsTotal o.id db :=
        orderItemsTotal_eq_of_items _ _ _ hitems
      constructor
      · intro o2 ho2 hid2
        have hmem := mem_setSubmittedTotal o2 ho2 hid2
        refine ⟨?_, hmem.1⟩
        rw [htot, hmem.2, recalc_fst]
      · rw [htot, recalc_fst]

/-- C1: after every cart mutation (either branch of add-to-cart, and the final
recompute in create-order), the persisted `total_amount` of the returned order
equals the sum of `quantity * unit_price` over that order's line items, and so
does the total reported in the response. -/
theorem C1_total_invariant_after_mutation (p : CartAddItem) (cid : Nat) (db : DB) :
    (∀ d r, add_to_cart p db = (d, Except.ok r) →
      (∀ o ∈ d.orders, o.id = r.order_id →
        o.total_amount = orderItemsTotal r.order_id d) ∧
      r.total_amount = orderItemsTotal r.order_id d) ∧
    (∀ d r, create_order cid db = (d, Except.ok r) →
      (∀ o ∈ d.orders, o.id = r.order_id →
        o.total_amount = orderItemsTotal r.order_id d) ∧
      r.total_amount = orderItemsTotal r.order_id d) := by
  constructor
  · intro d r h
    exact add_to_cart_ok h
  · intro d r h
    have hc := create_order_ok h
    exact ⟨fun o ho hid => (hc.1 o ho hid).1, hc.2⟩

/-- C1 witness: both mutations run on concrete states, the invariant checked. -/
theorem C1_total_invariant_after_mutation_witness :
    (add_to_cart pW dbW0 = (dbW1, Except.ok rW1) ∧
      rW1.total_amount = orderItemsTotal rW1.order_id dbW1) ∧
    (∃ d2, create_order 7 dbW1 = (d2, Except.ok rW2) ∧
      rW2.total_amount = orderItemsTotal rW2.order_id d2) :=
  ⟨⟨by decide,
    ((C1_total_invariant_after_mutation pW 7 dbW0).1 dbW1 rW1 (by decide)).2⟩,
   ⟨(create_order 7 dbW1).1,
    by
      have h : create_order 7 dbW1 = ((create_order 7 dbW1).1, Except.ok rW2) := by
        decide
      exact ⟨h, ((C1_total_invariant_after_mutation pW 7 dbW1).2
        (create_order 7 dbW1).1 rW2 h).2⟩⟩⟩

/-- The quantity bump preserves the number of line items. -/
lemma bumpQuantity_length (item_id : Nat) (qty : Int) (items : List OrderItem) :
    (bumpQuantity item_id qty items).length = items.length := by
  unfold bumpQuantity
  exact List.length_map items _

/-- The quantity bump leaves every line item's `unit_price` unchanged. -/
lemma bumpQuantity_unit_price (item_id : Nat) (qty : Int) (items : List OrderItem) :
    (bumpQuantity item_id qty items).map OrderItem.unit_price =
      items.map OrderItem.unit_price := by
  unfold bumpQuantity
  rw [List.map_map]
  apply List.map_congr_left
  intro it _
  by_cases h : (it.id == item_id) = true
  · simp only [Function.comp_apply, if_pos h]
  · simp only [Function.comp_apply, if_neg h]

/-- A stored line item reappears after the bump with its quantity increased. -/
lemma bumpQuantity_mem {item : OrderItem} {items : List OrderItem}
    (h : item ∈ items) (qty : Int) :
    { item with quantity := item.quantity + qty } ∈ bumpQuantity item.id qty items := by
  unfold bumpQuantity
  refine List.mem_map.mpr ⟨item, h, ?_⟩
  rw [if_pos (beq_self_eq_true item.id)]

/-- C2: when the clinic's draft order already has a line item for the
(product, supplier) pair, add-to-cart with qty > 0 updates exactly that item,
adding qty to its quantity; no item's unit_price changes (the price row is not
re-consulted for the update), no second line item appears (the item count is
unchanged), and the response reports the update. -/
theorem C2_existing_item_incremented (p : CartAddItem) (db : DB) (o : Order)
    (sp : SupplierPrice) (item : OrderItem)
    (hq : 0 < p.quantity)
    (ho : findDraftOrder p.clinic_user_id db = some o)
    (hsp : findActiveSupplierPrice p.product_id p.supplier_id db = some sp)
    (hst : 0 < sp.stock)
    (hit : findOrderItem o.id p.product_id p.supplier_id db = some item) :
    (add_to_cart p db).1.order_items =
      bumpQuantity item.id p.quantity db.order_items ∧
    (add_to_cart p db).1.order_items.length = db.order_items.length ∧
    (add_to_cart p db).1.order_items.map OrderItem.unit_price =
      db.order_items.map OrderItem.unit_price ∧
    { item with quantity := item.quantity + p.quantity } ∈
      (add_to_cart p db).1.order_items ∧
    ∃ t, (add_to_cart p db).2 =
      Except.ok ⟨"cart_item_updated", o.id, t,
        some { item with quantity := item.quantity + p.quantity }⟩ := by
  have hred := add_to_cart_existing hq ho hsp hst hit
  have hitems : (add_to_cart p db).1.order_items =
      bumpQuantity item.id p.quantity db.order_items := by
    rw [hred]
    rfl
  refine ⟨hitems, ?_, ?_, ?_, ?_⟩
  · rw [hitems]
    exact bumpQuantity_length item.id p.quantity db.order_items
  · rw [hitems]
    exact bumpQuantity_unit_price item.id p.quantity db.order_items
  · rw [hitems]
    exact bumpQuantity_mem (findOrderItem_mem hit) p.quantity
  · refine ⟨(_recalc_and_update_order_total o.id (bumpItemDB p item db)).1, ?_⟩
    rw [hred]
    rfl

/-- C2 witness: clinic 7 adds the same pair twice; the single line item's
quantity grows from 2 to 4, its unit_price stays 5, and no new item appears. -/
theorem C2_existing_item_incremented_witness :
    (add_to_cart pW dbW1).1.order_items.length = dbW1.order_items.length ∧
    { itemW with quantity := itemW.quantity + pW.quantity } ∈
      (add_to_cart pW dbW1).1.order_items := by
  have h := C2_existing_item_incremented pW dbW1 ⟨100, 7, OrderStatus.draft, 10⟩
    spW itemW (by decide) (by decide) (by decide) (by decide) (by decide)
  exact ⟨h.2.1, h.2.2.2.1⟩

/-- C3: the offers listing for a product is exactly (a permutation of) the
active, positive-stock price rows for that product; every listed row is
active with positive stock and belongs to the product; and the listing is
sorted by price ascending with delivery_days ascending as tie-break. -/
theorem C3_offers_filtered_and_sorted (pid : Nat) (db : DB) :
    (get_product_offers pid db).Perm
      (db.supplier_prices.filter (fun sp =>
        sp.product_id == pid && sp.is_active && decide (0 < sp.stock))) ∧
    (∀ sp ∈ get_product_offers pid db,
      sp.product_id = pid ∧ sp.is_active = true ∧ 0 < sp.stock) ∧
    List.Pairwise offerLE (get_product_offers pid db) := by
  refine ⟨List.perm_insertionSort offerLE _, ?_, List.sorted_insertionSort offerLE _⟩
  intro sp hsp
  have hmem : sp ∈ db.supplier_prices.filter (fun sp =>
      sp.product_id == pid && sp.is_active && decide (0 < sp.stock)) :=
    (List.perm_insertionSort offerLE _).subset hsp
  have hpred := List.of_mem_filter hmem
  simp only [Bool.and_eq_true, beq_iff_eq, decide_eq_true_eq] at hpred
  exact ⟨hpred.1.1, hpred.1.2, hpred.2⟩

/-- C3 witness: the spec's example — offers (10,3), (10,1), (8,5) plus an
inactive and a zero-stock row list as (8,5), (10,1), (10,3) — and the listed
head is active, in stock, and belongs to the product. -/
theorem C3_offers_filtered_and_sorted_witness :
    get_product_offers 10 dbO = [spC, spB, spA] ∧
    (spC.product_id = 10 ∧ spC.is_active = true ∧ 0 < spC.stock) :=
  ⟨by decide, (C3_offers_filtered_and_sorted 10 dbO).2.1 spC (by decide)⟩

/-- C8: the best-offer query returns exactly the head of the offers listing
(same filter, same two-key ordering, limited to one row), or none when the
listing is empty. -/
theorem C8_best_offer_is_head_of_offers (pid : Nat) (db : DB) :
    get_product_best_offer pid db = (get_product_offers pid db).head? := by
  unfold get_product_best_offer get_product_offers
  exact head?_take_one _

/-- C4: create-order fails (404, state unchanged) when no draft exists, fails
(400, state unchanged) when the draft has zero line items, and on a non-empty
draft succeeds: the found order was a draft, the returned order is submitted,
and every persisted row with its id is submitted and carries exactly the item
sum as total. -/
theorem C4_create_order_validation (cid : Nat) (db : DB) :
    (findDraftOrder cid db = none →
      create_order cid db =
        (db, Except.error ⟨404, "Draft sepet bulunamadi. Once /cart/add ile urun ekle."⟩)) ∧
    (∀ o, findDraftOrder cid db = some o →
      db.order_items.filter (fun i => i.order_id == o.id) = [] →
      create_order cid db =
        (db, Except.error ⟨400, "Sepet bos. Siparis olusturulamaz."⟩)) ∧
    (∀ o, findDraftOrder cid db = some o →
      db.order_items.filter (fun i => i.order_id == o.id) ≠ [] →
      o.status = OrderStatus.draft ∧
      ∃ d r, create_order cid db = (d, Except.ok r) ∧
        r.order_id = o.id ∧ r.status = OrderStatus.submitted ∧
        (∀ o2 ∈ d.orders, o2.id = o.id →
          o2.status = OrderStatus.submitted ∧
          o2.total_amount = orderItemsTotal o.id d) ∧
        r.total_amount = orderItemsTotal o.id d) := by
  refine ⟨?_, ?_, ?_⟩
  · intro h
    unfold create_order
    rw [h]
  · intro o ho hempty
    simp only [create_order, ho, hempty, List.length_nil]
    rw [if_pos trivial]
  · intro o ho hne
    have hlen : ¬ (db.order_items.filter (fun i => i.order_id == o.id)).length = 0 :=
      fun h0 => hne (List.length_eq_zero.mp h0)
    have h2 : (create_order cid db).2 =
        Except.ok ⟨"order_created", o.id, OrderStatus.submitted,
          (_recalc_and_update_order_total o.id db).1,
          (db.order_items.filter (fun i => i.order_id == o.id)).length⟩ := by
      simp only [create_order, ho, if_neg hlen]
    have heq : create_order cid db =
        ((create_order cid db).1,
          Except.ok ⟨"order_created", o.id, OrderStatus.submitted,
            (_recalc_and_update_order_total o.id db).1,
            (db.order_items.filter (fun i => i.order_id == o.id)).length⟩) :=
      Prod.ext_iff.mpr ⟨rfl, h2⟩
    have hco := create_order_ok heq
    exact ⟨(findDraftOrder_some ho).2.2, (create_order cid db).1, _, heq, rfl, rfl,
      fun o2 ho2 hid2 => ⟨(hco.1 o2 ho2 hid2).2, (hco.1 o2 ho2 hid2).1⟩, hco.2⟩

/-- C4 witness: absent draft fails, empty draft fails, non-empty draft is
submitted with the item sum as total. -/
theorem C4_create_order_validation_witness :
    create_order 7 dbW0 =
      (dbW0, Except.error ⟨404, "Draft sepet bulunamadi. Once /cart/add ile urun ekle."⟩) ∧
    create_order 7 dbW2 =
      (dbW2, Except.error ⟨400, "Sepet bos. Siparis olusturulamaz."⟩) ∧
    (∃ d r, create_order 7 dbW1 = (d, Except.ok r) ∧
      r.order_id = 100 ∧ r.status = OrderStatus.submitted ∧
      (∀ o2 ∈ d.orders, o2.id = 100 →
        o2.status = OrderStatus.submitted ∧
        o2.total_amount = orderItemsTotal 100 d) ∧
      r.total_amount = orderItemsTotal 100 d) :=
  ⟨(C4_create_order_validation 7 dbW0).1 (by decide),
   (C4_create_order_validation 7 dbW2).2.1 ⟨100, 7, OrderStatus.draft, 0⟩
     (by decide) (by decide),
   ((C4_create_order_validation 7 dbW1).2.2 ⟨100, 7, OrderStatus.draft, 10⟩
     (by decide) (by decide)).2⟩

/-- Every `add_to_cart` error is one of the three validation errors the
handler raises itself. -/
lemma add_to_cart_error_cases {q : CartAddItem} {dbx d : DB} {e : HTTPError}
    (h : add_to_cart q dbx = (d, Except.error e)) :
    e = ⟨400, "quantity > 0 olmali"⟩ ∨
    e = ⟨404, "Bu urun+tedarikci icin aktif supplier_prices bulunamadi"⟩ ∨
    e = ⟨400, "Stok yok (stock <= 0)"⟩ := by
  unfold add_to_cart at h
  split at h
  · injection h with h1 h2
    injection h2 with h2
    exact Or.inl h2.symm
  · unfold addToCartWithOrder at h
    split at h
    · injection h with h1 h2
      injection h2 with h2
      exact Or.inr (Or.inl h2.symm)
    · split at h
      · injection h with h1 h2
        injection h2 with h2
        exact Or.inr (Or.inr h2.symm)
      · split at h
        · unfold addExistingItem at h
          injection h with h1 h2
          exact Except.noConfusion h2
        · unfold addNewItem at h
          injection h with h1 h2
          exact Except.noConfusion h2

/-- C5: an add-to-cart whose (product, supplier) pair has no active price row,
or whose row is out of stock, is rejected as a client error (404 resp. 400)
with a non-empty human-readable reason — and in fact every error this handler
raises itself is a 4xx with a non-empty reason (server errors arise only from
lower-level data-access failures, which the pure state model cannot produce). -/
theorem C5_rejections_are_4xx (p : CartAddItem) (db : DB) :
    (0 < p.quantity →
      (findActiveSupplierPrice p.product_id p.supplier_id db = none ∨
        ∃ sp, findActiveSupplierPrice p.product_id p.supplier_id db = some sp ∧
          sp.stock ≤ 0) →
      ∃ e, (add_to_cart p db).2 = Except.error e ∧
        400 ≤ e.status ∧ e.status < 500 ∧ e.detail ≠ "") ∧
    (∀ q dbx d e, add_to_cart q dbx = (d, Except.error e) →
      (e.status = 400 ∨ e.status = 404) ∧ e.detail ≠ "") := by
  constructor
  · intro hq hfail
    rcases hfail with hnone | ⟨sp, hsp, hst⟩
    · refine ⟨⟨404, "Bu urun+tedarikci icin aktif supplier_prices bulunamadi"⟩,
        ?_, by decide, by decide, by decide⟩
      rw [add_to_cart_price_missing hq hnone]
    · refine ⟨⟨400, "Stok yok (stock <= 0)"⟩, ?_, by decide, by decide, by decide⟩
      rw [add_to_cart_out_of_stock hq hsp hst]
  · intro q dbx d e h
    rcases add_to_cart_error_cases h with rfl | rfl | rfl
    · exact ⟨Or.inl rfl, by decide⟩
    · exact ⟨Or.inr rfl, by decide⟩
    · exact ⟨Or.inl rfl, by decide⟩

/-- C5 witness: a pair with no active price row is rejected with 404. -/
theorem C5_rejections_are_4xx_witness :
    (add_to_cart ⟨7, 99, 20, 1⟩ dbW0).2 =
      Except.error ⟨404, "Bu urun+tedarikci icin aktif supplier_prices bulunamadi"⟩ ∧
    ∃ e, (add_to_cart ⟨7, 99, 20, 1⟩ dbW0).2 = Except.error e ∧
      400 ≤ e.status ∧ e.status < 500 ∧ e.detail ≠ "" :=
  ⟨by decide, (C5_rejections_are_4xx ⟨7, 99, 20, 1⟩ dbW0).1 (by decide)
    (Or.inl (by decide))⟩

/-- The status-only submit update preserves every order's `total_amount`. -/
lemma map_total_setSubmitted (oid : Nat) (l : List Order) :
    (l.map (fun x =>
      if x.id == oid then { x with status := OrderStatus.submitted } else x)).map
        Order.total_amount = l.map Order.total_amount := by
  rw [List.map_map]
  apply List.map_congr_left
  intro x _
  by_cases h : (x.id == oid) = true
  · simp only [Function.comp_apply, if_pos h]
  · simp only [Function.comp_apply, if_neg h]

/-- C6: with a draft order present, submit-order flips exactly that order's
status to submitted — no item-count validation, no recompute: line items and
every order's total_amount are untouched, even for an empty draft — and it
fails only when no draft exists. -/
theorem C6_submit_order_no_validation (cid : Nat) (db : DB) :
    (∀ o, findDraftOrder cid db = some o →
      o.status = OrderStatus.draft ∧
      submit_order (some cid) db =
        ({ db with
            orders := db.orders.map (fun x =>
              if x.id == o.id then { x with status := OrderStatus.submitted } else x) },
          Except.ok ⟨"order_created", o.id⟩) ∧
      (submit_order (some cid) db).1.order_items = db.order_items ∧
      (submit_order (some cid) db).1.orders.map Order.total_amount =
        db.orders.map Order.total_amount ∧
      (∀ o2 ∈ (submit_order (some cid) db).1.orders, o2.id = o.id →
        o2.status = OrderStatus.submitted)) ∧
    (findDraftOrder cid db = none →
      submit_order (some cid) db = (db, Except.error ⟨404, "Draft order bulunamadi"⟩)) := by
  constructor
  · intro o ho
    have heq : submit_order (some cid) db =
        ({ db with
            orders := db.orders.map (fun x =>
              if x.id == o.id then { x with status := OrderStatus.submitted } else x) },
          Except.ok ⟨"order_created", o.id⟩) := by
      simp only [submit_order, ho]
    refine ⟨(findDraftOrder_some ho).2.2, heq, ?_, ?_, ?_⟩
    · rw [heq]
    · rw [heq]
      exact map_total_setSubmitted o.id db.orders
    · rw [heq]
      exact mem_setSubmitted
  · intro h
    simp only [submit_order, h]

/-- C6 witness: submitting a zero-item draft succeeds, leaves the items and
total untouched, and only flips the status. -/
theorem C6_submit_order_no_validation_witness :
    submit_order (some 7) dbW2 =
      (⟨[⟨100, 7, OrderStatus.submitted, 0⟩], [], [], 101, 201⟩,
        Except.ok ⟨"order_created", 100⟩) ∧
    (submit_order (some 7) dbW2).1.order_items = dbW2.order_items := by
  have h := (C6_submit_order_no_validation 7 dbW2).1 ⟨100, 7, OrderStatus.draft, 0⟩
    (by decide)
  exact ⟨by decide, h.2.2.1⟩

/-- C7: get-cart for a clinic user with no draft order returns the empty cart
(items = [], total_amount = 0) and performs no writes (the state component of
the result is the input state). -/
theorem C7_get_cart_no_draft_empty (cid : Nat) (db : DB)
    (h : findDraftOrder cid db = none) :
    get_cart cid db = (db, Except.ok ⟨none, [], 0⟩) := by
  unfold get_cart
  rw [h]

/-- C7 witness: clinic 7 has no draft in `dbW0`; the cart is empty. -/
theorem C7_get_cart_no_draft_empty_witness :
    findDraftOrder 7 dbW0 = none ∧
    get_cart 7 dbW0 = (dbW0, Except.ok ⟨none, [], 0⟩) :=
  ⟨by decide, C7_get_cart_no_draft_empty 7 dbW0 (by decide)⟩

/-- C9: a signup whose normalised role lies outside the closed set
{clinic, supplier} is rejected with a 400 validation error, and the handler
never reaches the remote auth call. -/
theorem C9_signup_bad_role_rejected (email password role : String)
    (h : (["clinic", "supplier"] : List String).contains (pyLower (pyStrip role)) = false) :
    signup email password role =
      SignupStep.rejected 400 "role sadece clinic veya supplier olabilir" ∧
    ∀ e pw r, signup email password role ≠ SignupStep.authSignUp e pw r := by
  have hrej : signup email password role =
      SignupStep.rejected 400 "role sadece clinic veya supplier olabilir" := by
    unfold signup
    rw [if_neg (by rw [h]; exact Bool.false_ne_true)]
  refine ⟨hrej, ?_⟩
  intro e pw r hcontra
  rw [hrej] at hcontra
  exact SignupStep.noConfusion hcontra

/-- C9 witness: role " Admin " (normalised "admin") is rejected. -/
theorem C9_signup_bad_role_rejected_witness :
    signup "a@b.com" "pw" " Admin " =
      SignupStep.rejected 400 "role sadece clinic veya supplier olabilir" :=
  (C9_signup_bad_role_rejected "a@b.com" "pw" " Admin " (by decide)).1

/-- C10: when no draft order exists and the price lookup then fails (missing
or inactive row, or stock ≤ 0), add-to-cart still returns an error — but the
freshly inserted empty draft order (total 0) remains in the state: the
operation is not atomic on failure. -/
theorem C10_failed_add_leaves_new_draft (p : CartAddItem) (db : DB)
    (hq : 0 < p.quantity)
    (hnd : findDraftOrder p.clinic_user_id db = none)
    (hfail : findActiveSupplierPrice p.product_id p.supplier_id db = none ∨
      ∃ sp, findActiveSupplierPrice p.product_id p.supplier_id db = some sp ∧
        sp.stock ≤ 0) :
    (∃ e, (add_to_cart p db).2 = Except.error e) ∧
    (add_to_cart p db).1.orders =
      db.orders ++ [⟨db.next_order_id, p.clinic_user_id, OrderStatus.draft, 0⟩] ∧
    (add_to_cart p db).1.order_items = db.order_items ∧
    (add_to_cart p db).1 ≠ db := by
  have hfst : (add_to_cart p db).1 = (findOrCreateDraftOrder p.clinic_user_id db).2 := by
    rcases hfail with hnone | ⟨sp, hsp, hst⟩
    · rw [add_to_cart_price_missing hq hnone]
    · rw [add_to_cart_out_of_stock hq hsp hst]
  have horders : (add_to_cart p db).1.orders =
      db.orders ++ [⟨db.next_order_id, p.clinic_user_id, OrderStatus.draft, 0⟩] := by
    rw [hfst, findOrCreate_of_none hnd]
  have hitems : (add_to_cart p db).1.order_items = db.order_items := by
    rw [hfst]
    exact findOrCreate_order_items _ _
  have hsnd : ∃ e, (add_to_cart p db).2 = Except.error e := by
    rcases hfail with hnone | ⟨sp, hsp, hst⟩
    · exact ⟨_, by rw [add_to_cart_price_missing hq hnone]⟩
    · exact ⟨_, by rw [add_to_cart_out_of_stock hq hsp hst]⟩
  refine ⟨hsnd, horders, hitems, ?_⟩
  intro hcontra
  have hlen : (db.orders ++
      [(⟨db.next_order_id, p.clinic_user_id, OrderStatus.draft, 0⟩ : Order)]).length =
      db.orders.length := by
    rw [← horders, hcontra]
  simp only [List.length_append, List.length_singleton] at hlen
  omega

/-- C10 witness: clinic 7 has no draft in `dbW0` and the pair (99, 20) has no
price row; the request errors, yet a fresh empty draft order persists. -/
theorem C10_failed_add_leaves_new_draft_witness :
    (add_to_cart ⟨7, 99, 20, 1⟩ dbW0).1.orders =
      dbW0.orders ++ [⟨dbW0.next_order_id, 7, OrderStatus.draft, 0⟩] ∧
    (add_to_cart ⟨7, 99, 20, 1⟩ dbW0).1 ≠ dbW0 := by
  have h := C10_failed_add_leaves_new_draft ⟨7, 99, 20, 1⟩ dbW0 (by decide)
    (by decide) (Or.inl (by decide))
  exact ⟨h.2.1, h.2.2.2⟩

end Vetcent
